import Mathlib

/-!
Shallow embedding of the Halo (Flash Guardian) flash-detection engine,
translated from the FlashDetector class of the content script.

Frame metric extraction (calculateLuminance, calculateRedSaturation) is
modelled over explicit byte buffers; JavaScript division is modelled by
jsDiv so that 0/0 (the empty-frame case) is represented faithfully as NaN.
The per-frame state machine (analyzeFrame, triggerWarning,
resetDetectionState, start, stop, resetWarning) is modelled as explicit
state passing over rational frame metrics; timestamps are rationals in
milliseconds.
-/

namespace Halo

/-- Detection parameter: 10% relative luminance change (LUMINANCE_THRESHOLD). -/
def LUMINANCE_THRESHOLD : ℚ := 1/10

/-- Detection parameter: saturated red delta threshold (RED_THRESHOLD). -/
def RED_THRESHOLD : ℚ := 8/10

/-- Detection parameter: 3 flashes per second (FLASH_FREQUENCY). -/
def FLASH_FREQUENCY : ℕ := 3

/-- Detection parameter: 1 second window in milliseconds (DETECTION_WINDOW). -/
def DETECTION_WINDOW : ℚ := 1000

/-- Detection parameter: ignore frames darker than 5% brightness (MIN_BRIGHTNESS). -/
def MIN_BRIGHTNESS : ℚ := 5/100

/-- Detection parameter: skip the first 10 analyzed frames (WARMUP_FRAMES). -/
def WARMUP_FRAMES : ℕ := 10

/-- Result type of JavaScript floating-point division: either a finite
number (modelled exactly as a rational) or one of the non-finite values. -/
inductive JSNum where
  | nan
  | posInf
  | negInf
  | num (q : ℚ)
deriving Repr, DecidableEq

/-- Whether a JavaScript number is finite. -/
def JSNum.isFinite : JSNum → Bool
  | .num _ => true
  | _ => false

/-- JavaScript division: b = 0 gives NaN for 0/0 and a signed infinity
otherwise; any other division is exact rational division. -/
def jsDiv (a b : ℚ) : JSNum :=
  if b = 0 then (if a = 0 then .nan else if a > 0 then .posInf else .negInf)
  else .num (a / b)

/-- Indices sampled by the metric loops: i = 0, 16, 32, ... below len
(the source samples every 4th pixel of the RGBA buffer, i.e. steps the
flat byte index by 16). -/
def sampledIdx (len : ℕ) : List ℕ :=
  (List.range ((len + 15) / 16)).map (fun k => 16 * k)

/-- Byte i of the pixel buffer as a rational (out-of-range reads give 0;
an ImageData buffer length is always a multiple of 4, so the reads at
i+1 and i+2 are in range whenever i is). -/
def byteAt (data : List ℕ) (i : ℕ) : ℚ :=
  ((data.getD i 0 : ℕ) : ℚ)

/-- sRGB channel to linear light, parameterised by the transcendental
x ↦ x ^ 2.4 (pow24), which the source computes with Math.pow. -/
def linearChannel (pow24 : ℚ → ℚ) (c : ℚ) : ℚ :=
  if c ≤ 3928/100000 then c / (1292/100)
  else pow24 ((c + 55/1000) / (1055/1000))

/-- WCAG relative luminance of the sampled pixel starting at byte i. -/
def pixelLuminance (pow24 : ℚ → ℚ) (data : List ℕ) (i : ℕ) : ℚ :=
  let r := byteAt data i / 255
  let g := byteAt data (i + 1) / 255
  let b := byteAt data (i + 2) / 255
  2126/10000 * linearChannel pow24 r
    + 7152/10000 * linearChannel pow24 g
    + 722/10000 * linearChannel pow24 b

/-- FlashDetector.calculateLuminance: average WCAG relative luminance
over the sampled pixels, dividing the accumulated total by
pixelCount / 4 where pixelCount = data.length / 4. -/
def calculateLuminance (pow24 : ℚ → ℚ) (data : List ℕ) : JSNum :=
  let pixelCount : ℚ := (data.length : ℚ) / 4
  let totalLuminance : ℚ := ((sampledIdx data.length).map (pixelLuminance pow24 data)).sum
  jsDiv totalLuminance (pixelCount / 4)

/-- FlashDetector.calculateRedSaturation: fraction of sampled pixels with
R > 200, G < 100, B < 100, dividing the count by pixelCount / 4. -/
def calculateRedSaturation (data : List ℕ) : JSNum :=
  let pixelCount : ℚ := (data.length : ℚ) / 4
  let redSaturation : ℚ :=
    (((sampledIdx data.length).filter (fun i =>
      decide (data.getD i 0 > 200) && decide (data.getD (i + 1) 0 < 100)
        && decide (data.getD (i + 2) 0 < 100))).length : ℕ)
  jsDiv redSaturation (pixelCount / 4)

/-- Kind of a triggered warning, the first argument of triggerWarning. -/
inductive WKind where
  | general
  | red
deriving Repr, DecidableEq

/-- Observable payload of a warning: the data the source sends in its
flashDetected custom event and runtime messages (type, flashCount,
maxFlashesPerSecond, totalFlashes). -/
structure WarningEvent where
  kind : WKind
  flashCount : ℕ
  maxFlashesPerSecond : ℕ
  totalFlashes : ℕ
deriving Repr, DecidableEq

/-- Metric view of one analyzed frame: the values the source computes at
lines 113-117 of the content script (calculateLuminance result,
calculateRedSaturation result, and Date.now() at the call). -/
structure FrameInput where
  lum : ℚ
  red : ℚ
  time : ℚ
deriving Repr, DecidableEq

/-- Mutable fields of a FlashDetector, as initialised by the constructor,
plus the paused/ended flags of the video element which gate analyzeFrame. -/
structure DetectorState where
  prevLuminance : Option ℚ
  prevRedSaturation : Option ℚ
  flashTimestamps : List ℚ
  redFlashTimestamps : List ℚ
  isAnalyzing : Bool
  warningShown : Bool
  frameCount : ℕ
  skipFrames : ℕ
  analyzedFrameCount : ℕ
  totalFlashes : ℕ
  maxFlashesPerSecond : ℕ
  videoPaused : Bool
  videoEnded : Bool
deriving Repr, DecidableEq

/-- Constructor state of a FlashDetector attached to a playing video. -/
def initialState : DetectorState where
  prevLuminance := none
  prevRedSaturation := none
  flashTimestamps := []
  redFlashTimestamps := []
  isAnalyzing := false
  warningShown := false
  frameCount := 0
  skipFrames := 2
  analyzedFrameCount := 0
  totalFlashes := 0
  maxFlashesPerSecond := 0
  videoPaused := false
  videoEnded := false

/-- FlashDetector.triggerWarning: no-op when the warning latch is set;
otherwise sets the latch, pauses the video and emits the warning event
built from the current statistics. -/
def triggerWarning (s : DetectorState) (kind : WKind) (flashCount : ℕ) :
    DetectorState × Option WarningEvent :=
  if s.warningShown then (s, none)
  else
    ({ s with warningShown := true, videoPaused := true },
     some { kind := kind, flashCount := flashCount,
            maxFlashesPerSecond := s.maxFlashesPerSecond,
            totalFlashes := s.totalFlashes })

/-- Dark-frame guard of line 131: current luminance below MIN_BRIGHTNESS,
or a stored previous luminance below MIN_BRIGHTNESS. -/
def darkGuard (prev : Option ℚ) (cur : ℚ) : Bool :=
  decide (cur < MIN_BRIGHTNESS) ||
    (match prev with
     | some p => decide (p < MIN_BRIGHTNESS)
     | none => false)

/-- Window pruning of lines 158-164: keep timestamps within
DETECTION_WINDOW of the current time. -/
def pruneWindow (now : ℚ) (w : List ℚ) : List ℚ :=
  w.filter (fun t => decide (now - t ≤ DETECTION_WINDOW))

/-- Line 144 of the content script: both the current and the previous
luminance must exceed MIN_BRIGHTNESS, strictly. -/
def bothFramesBright (cur prevL : ℚ) : Bool :=
  decide (cur > MIN_BRIGHTNESS) && decide (prevL > MIN_BRIGHTNESS)

/-- Condition of line 147 under which a general flash event is recorded:
relative change above LUMINANCE_THRESHOLD, both frames bright, absolute
change above 5%. -/
def recordsGeneral (cur prevL : ℚ) : Bool :=
  decide (|cur - prevL| / max prevL (1/100) > LUMINANCE_THRESHOLD)
    && bothFramesBright cur prevL && decide (|cur - prevL| > 5/100)

/-- Condition of line 154 under which a red flash event is recorded: red
saturation delta above RED_THRESHOLD and both frames bright. -/
def recordsRed (cur prevL curRed prevR : ℚ) : Bool :=
  decide (|curRed - prevR| > RED_THRESHOLD) && bothFramesBright cur prevL

/-- Classification block of analyzeFrame (lines 138-181 of the content
script): computes the luminance and red deltas against the previous
metrics, appends qualifying events, prunes both windows, updates the
statistics, triggers a warning when a window reaches FLASH_FREQUENCY
(checking the general window first), and stores the current metrics as
the new previous metrics. The JS null of prevRedSaturation coerces to 0
in the subtraction at line 153; in every reachable state
prevRedSaturation is set whenever prevLuminance is, so the coercion is
never exercised. -/
def classifyStep (s2 : DetectorState) (prevL : ℚ) (f : FrameInput) :
    DetectorState × Option WarningEvent :=
  let currentLuminance := f.lum
  let currentRedSaturation := f.red
  let currentTime := f.time
  let prevR := s2.prevRedSaturation.getD 0
  let fts0 := if recordsGeneral currentLuminance prevL
              then s2.flashTimestamps ++ [currentTime]
              else s2.flashTimestamps
  let tf := if recordsGeneral currentLuminance prevL
            then s2.totalFlashes + 1 else s2.totalFlashes
  let rts0 := if recordsRed currentLuminance prevL currentRedSaturation prevR
              then s2.redFlashTimestamps ++ [currentTime]
              else s2.redFlashTimestamps
  let fts := pruneWindow currentTime fts0
  let rts := pruneWindow currentTime rts0
  let s3 := { s2 with flashTimestamps := fts,
                      redFlashTimestamps := rts,
                      totalFlashes := tf,
                      maxFlashesPerSecond := max s2.maxFlashesPerSecond fts.length }
  let s4w :=
    if fts.length ≥ FLASH_FREQUENCY then triggerWarning s3 .general fts.length
    else if rts.length ≥ FLASH_FREQUENCY then triggerWarning s3 .red rts.length
    else (s3, none)
  ({ s4w.1 with prevLuminance := some currentLuminance,
                prevRedSaturation := some currentRedSaturation }, s4w.2)

/-- FlashDetector.analyzeFrame, driven by the metric view of the captured
frame. Returns the updated state and the warning emitted by this call,
if any. -/
def analyzeFrame (s0 : DetectorState) (f : FrameInput) :
    DetectorState × Option WarningEvent :=
  if s0.videoPaused || s0.videoEnded then (s0, none)
  else
    let s1 := { s0 with frameCount := s0.frameCount + 1 }
    if s1.frameCount % s1.skipFrames ≠ 0 then (s1, none)
    else
      let currentLuminance := f.lum
      let currentRedSaturation := f.red
      let s2 := { s1 with analyzedFrameCount := s1.analyzedFrameCount + 1 }
      if s2.analyzedFrameCount ≤ WARMUP_FRAMES then
        ({ s2 with prevLuminance := some currentLuminance,
                   prevRedSaturation := some currentRedSaturation }, none)
      else if darkGuard s2.prevLuminance currentLuminance then
        ({ s2 with prevLuminance := some currentLuminance,
                   prevRedSaturation := some currentRedSaturation }, none)
      else
        match s2.prevLuminance with
        | none =>
          ({ s2 with prevLuminance := some currentLuminance,
                     prevRedSaturation := some currentRedSaturation }, none)
        | some prevL => classifyStep s2 prevL f

/-- FlashDetector.resetDetectionState: clears the previous metrics, both
windows and the analyzed-frame counter. -/
def resetDetectionState (s : DetectorState) : DetectorState :=
  { s with prevLuminance := none
           prevRedSaturation := none
           flashTimestamps := []
           redFlashTimestamps := []
           analyzedFrameCount := 0 }

/-- FlashDetector.start: no-op when already analyzing; otherwise clears
the warning latch and the statistics and resets the detection state. -/
def start (s : DetectorState) : DetectorState :=
  if s.isAnalyzing then s
  else resetDetectionState
    { s with isAnalyzing := true
             warningShown := false
             totalFlashes := 0
             maxFlashesPerSecond := 0 }

/-- FlashDetector.stop: stops the analysis loop. -/
def stop (s : DetectorState) : DetectorState :=
  { s with isAnalyzing := false }

/-- FlashDetector.resetWarning: clears the warning latch and the
detection state. -/
def resetWarning (s : DetectorState) : DetectorState :=
  resetDetectionState { s with warningShown := false }

/-- Feed a list of frames to analyzeFrame one call at a time, collecting
every warning emitted along the way. -/
def runCalls (s : DetectorState) : List FrameInput → DetectorState × List WarningEvent
  | [] => (s, [])
  | f :: fs =>
    let r := analyzeFrame s f
    let rest := runCalls r.1 fs
    (rest.1, r.2.toList ++ rest.2)

/-- State of a freshly started detector, as produced by the play handler
calling start() on a newly constructed FlashDetector. -/
def startState : DetectorState := start initialState

/-- Filler frame for the calls the stride filter drops (their content is
never read by analyzeFrame). -/
def dummyFrame : FrameInput := ⟨0, 0, 0⟩

/-- Interleave each frame with one dropped call, so that with the default
stride (analyze when frameCount is even) every listed frame is analyzed. -/
def analyzedCalls (fs : List FrameInput) : List FrameInput :=
  fs.foldr (fun f acc => dummyFrame :: f :: acc) []

/-- Ten warmup frames whose luminance sits exactly at MIN_BRIGHTNESS. -/
def boundaryWarmup : List FrameInput := List.replicate 10 ⟨1/20, 0, 0⟩

/-- Reachable state of a started session that has analyzed ten frames of
luminance exactly MIN_BRIGHTNESS and then dropped one further call: the
next call is stride-admitted, past warmup, and compared against the
stored previous luminance 1/20. -/
def sBoundary : DetectorState :=
  (runCalls startState (analyzedCalls boundaryWarmup ++ [dummyFrame])).1

/-- Scenario with three red transitions: ten warmup frames at luminance
0.1, then red saturation 0.9 / 0 / 0.9 at t = 100, 200, 300 ms with the
luminance constant at 0.1 (strictly above MIN_BRIGHTNESS). -/
def scenD : List FrameInput :=
  analyzedCalls (List.replicate 10 ⟨1/10, 0, 0⟩
    ++ [⟨1/10, 9/10, 100⟩, ⟨1/10, 0, 200⟩, ⟨1/10, 9/10, 300⟩])

/-- Stale-window scenario: ten warmup frames at luminance 0.1, a general
flash event at t = 100 (luminance jumps to 0.9), then a dark frame at
t = 2500 which the dark guard suppresses without pruning the windows. -/
def staleRun : List FrameInput :=
  analyzedCalls (List.replicate 10 ⟨1/10, 0, 0⟩
    ++ [⟨9/10, 0, 100⟩, ⟨0, 0, 2500⟩])

/-- Post-warmup state used to instantiate the per-frame step theorems:
previous metrics luminance 1/2 and red saturation 0 stored, ten frames
analyzed, next call stride-admitted. -/
def sActive : DetectorState :=
  { startState with frameCount := 1, analyzedFrameCount := 10,
                    prevLuminance := some (1/2), prevRedSaturation := some 0 }

/-- Guard of line 95: a paused or ended video makes analyzeFrame a
complete no-op. -/
theorem analyzeFrame_guard (s : DetectorState) (f : FrameInput)
    (h : s.videoPaused = true ∨ s.videoEnded = true) :
    analyzeFrame s f = (s, none) := by
  rcases h with h | h <;> simp [analyzeFrame, h]

/-- Stride filter of lines 99-104: a dropped call only increments the raw
frame counter. -/
theorem analyzeFrame_skip (s : DetectorState) (f : FrameInput)
    (hp : s.videoPaused = false) (he : s.videoEnded = false)
    (hs : (s.frameCount + 1) % s.skipFrames ≠ 0) :
    analyzeFrame s f = ({ s with frameCount := s.frameCount + 1 }, none) := by
  simp [analyzeFrame, hp, he, hs]

/-- Warmup path of lines 119-128: an analyzed frame within the warmup
span only stores its metrics. -/
theorem analyzeFrame_warmup (s : DetectorState) (f : FrameInput)
    (hp : s.videoPaused = false) (he : s.videoEnded = false)
    (hs : (s.frameCount + 1) % s.skipFrames = 0)
    (hw : s.analyzedFrameCount + 1 ≤ WARMUP_FRAMES) :
    analyzeFrame s f =
      ({ s with frameCount := s.frameCount + 1,
                analyzedFrameCount := s.analyzedFrameCount + 1,
                prevLuminance := some f.lum,
                prevRedSaturation := some f.red }, none) := by
  simp [analyzeFrame, hp, he, hs, hw]

/-- Dark-frame path of lines 130-136: a suppressed frame only stores its
metrics. -/
theorem analyzeFrame_dark (s : DetectorState) (f : FrameInput)
    (hp : s.videoPaused = false) (he : s.videoEnded = false)
    (hs : (s.frameCount + 1) % s.skipFrames = 0)
    (hw : WARMUP_FRAMES < s.analyzedFrameCount + 1)
    (hd : darkGuard s.prevLuminance f.lum = true) :
    analyzeFrame s f =
      ({ s with frameCount := s.frameCount + 1,
                analyzedFrameCount := s.analyzedFrameCount + 1,
                prevLuminance := some f.lum,
                prevRedSaturation := some f.red }, none) := by
  simp [analyzeFrame, hp, he, hs, Nat.not_le.mpr hw, hd]

/-- Classification path of lines 138-181: past warmup, with a previous
luminance stored and the dark guard silent, analyzeFrame runs the
classification block on the bumped counters. -/
theorem analyzeFrame_classify (s : DetectorState) (f : FrameInput) (p : ℚ)
    (hp : s.videoPaused = false) (he : s.videoEnded = false)
    (hs : (s.frameCount + 1) % s.skipFrames = 0)
    (hw : WARMUP_FRAMES < s.analyzedFrameCount + 1)
    (hprev : s.prevLuminance = some p)
    (hd : darkGuard s.prevLuminance f.lum = false) :
    analyzeFrame s f =
      classifyStep { s with frameCount := s.frameCount + 1,
                            analyzedFrameCount := s.analyzedFrameCount + 1 } p f := by
  rw [hprev] at hd
  simp [analyzeFrame, hp, he, hs, Nat.not_le.mpr hw, hprev, hd]

/-- Post-warmup path with no stored previous luminance: analyzeFrame only
stores the metrics (this path is unreachable after a warmup of at least
one frame, but the source guards on it at line 138). -/
theorem analyzeFrame_noprev (s : DetectorState) (f : FrameInput)
    (hp : s.videoPaused = false) (he : s.videoEnded = false)
    (hs : (s.frameCount + 1) % s.skipFrames = 0)
    (hw : WARMUP_FRAMES < s.analyzedFrameCount + 1)
    (hprev : s.prevLuminance = none) :
    analyzeFrame s f =
      ({ s with frameCount := s.frameCount + 1,
                analyzedFrameCount := s.analyzedFrameCount + 1,
                prevLuminance := some f.lum,
                prevRedSaturation := some f.red }, none) := by
  have hd : darkGuard s.prevLuminance f.lum = darkGuard none f.lum := by rw [hprev]
  by_cases hdk : darkGuard none f.lum = true
  · simp [analyzeFrame, hp, he, hs, Nat.not_le.mpr hw, hprev, hd, hdk]
  · simp [analyzeFrame, hp, he, hs, Nat.not_le.mpr hw, hprev, hd,
      Bool.not_eq_true _ ▸ hdk]

/-- The state part of triggerWarning: either unchanged (latch already
set) or latched with the video paused. -/
theorem triggerWarning_fst (s : DetectorState) (k : WKind) (c : ℕ) :
    (triggerWarning s k c).1 =
      if s.warningShown then s
      else { s with warningShown := true, videoPaused := true } := by
  unfold triggerWarning
  split <;> rfl

/-- Projections of the classification step: both windows end up pruned
at the frame time (with the qualifying event appended first), the
total flash counter counts exactly the general events, and the
metrics become the new previous metrics. -/
theorem classifyStep_fst (s : DetectorState) (p : ℚ) (f : FrameInput) :
    (classifyStep s p f).1.flashTimestamps =
      pruneWindow f.time (if recordsGeneral f.lum p
        then s.flashTimestamps ++ [f.time] else s.flashTimestamps)
    ∧ (classifyStep s p f).1.redFlashTimestamps =
      pruneWindow f.time (if recordsRed f.lum p f.red (s.prevRedSaturation.getD 0)
        then s.redFlashTimestamps ++ [f.time] else s.redFlashTimestamps)
    ∧ (classifyStep s p f).1.totalFlashes =
      (if recordsGeneral f.lum p then s.totalFlashes + 1 else s.totalFlashes)
    ∧ (classifyStep s p f).1.prevLuminance = some f.lum
    ∧ (classifyStep s p f).1.prevRedSaturation = some f.red := by
  simp only [classifyStep, triggerWarning]
  refine ⟨?_, ?_, ?_, ?_, ?_⟩ <;> first
  | (split_ifs <;> rfl)
  | trivial

/-- When the warning latch is set, the classification step emits nothing
and leaves the latch set. -/
theorem classifyStep_warned (s : DetectorState) (p : ℚ) (f : FrameInput)
    (h : s.warningShown = true) :
    (classifyStep s p f).2 = none ∧ (classifyStep s p f).1.warningShown = true := by
  unfold classifyStep triggerWarning
  simp [h]

/-- When the warning latch is set, a single analyzeFrame call emits
nothing and leaves the latch set. -/
theorem analyzeFrame_warned (s : DetectorState) (f : FrameInput)
    (h : s.warningShown = true) :
    (analyzeFrame s f).2 = none ∧ (analyzeFrame s f).1.warningShown = true := by
  simp only [analyzeFrame]
  split
  · exact ⟨rfl, h⟩
  · split
    · exact ⟨rfl, h⟩
    · split
      · exact ⟨rfl, h⟩
      · split
        · exact ⟨rfl, h⟩
        · split
          · exact ⟨rfl, h⟩
          · exact classifyStep_warned _ _ _ h

/-- Propositional reading of the general-flash condition of line 147. -/
theorem recordsGeneral_eq_true_iff (cur prevL : ℚ) :
    recordsGeneral cur prevL = true ↔
      (|cur - prevL| / max prevL (1/100) > LUMINANCE_THRESHOLD
        ∧ cur > MIN_BRIGHTNESS ∧ prevL > MIN_BRIGHTNESS ∧ |cur - prevL| > 5/100) := by
  simp [recordsGeneral, bothFramesBright, and_assoc]

/-- Propositional reading of the red-flash condition of line 154. -/
theorem recordsRed_eq_true_iff (cur prevL curRed prevR : ℚ) :
    recordsRed cur prevL curRed prevR = true ↔
      (|curRed - prevR| > RED_THRESHOLD
        ∧ cur > MIN_BRIGHTNESS ∧ prevL > MIN_BRIGHTNESS) := by
  simp [recordsRed, bothFramesBright, and_assoc]

/-- Every timestamp surviving the pruning satisfies the window bound. -/
theorem pruneWindow_all (now : ℚ) (w : List ℚ) :
    (pruneWindow now w).all (fun t => decide (now - t ≤ DETECTION_WINDOW)) = true := by
  simp only [pruneWindow, List.all_eq_true]
  intro t ht
  exact (List.mem_filter.mp ht).2

/-- Pruning at the time of a just-appended event keeps that event, so the
pruned window with the event is never the pruned window without it. -/
theorem pruneWindow_append_self_ne (now : ℚ) (w : List ℚ) :
    pruneWindow now (w ++ [now]) ≠ pruneWindow now w := by
  intro h
  have hlen := congrArg List.length h
  have hkeep : (now : ℚ) - now ≤ DETECTION_WINDOW := by
    simp [DETECTION_WINDOW]
  simp [pruneWindow, List.filter_append, hkeep] at hlen
  norm_num [DETECTION_WINDOW] at hlen

/-- Any warning emitted by the classification step carries the
totalFlashes value of the resulting state. -/
theorem classifyStep_snd_totalFlashes (s : DetectorState) (p : ℚ) (f : FrameInput) :
    (classifyStep s p f).2.all
      (fun w => decide (w.totalFlashes = (classifyStep s p f).1.totalFlashes)) = true := by
  simp only [classifyStep, triggerWarning]
  split_ifs <;> simp

/-- When triggerWarning actually latches, it also pauses the video. -/
theorem triggerWarning_latches (s : DetectorState) (k : WKind) (c : ℕ)
    (h : s.warningShown = false) :
    (triggerWarning s k c).1.warningShown = true
      ∧ (triggerWarning s k c).1.videoPaused = true := by
  simp [triggerWarning, h]

/-- The classification step preserves the invariant that a set warning
latch comes with a paused video. -/
theorem classifyStep_warned_paused (s : DetectorState) (p : ℚ) (f : FrameInput)
    (h : s.warningShown = true → s.videoPaused = true) :
    (classifyStep s p f).1.warningShown = true →
      (classifyStep s p f).1.videoPaused = true := by
  simp only [classifyStep, triggerWarning]
  split_ifs <;> simp_all

/-- One analyzeFrame call preserves the invariant that a set warning
latch comes with a paused video; together with triggerWarning_latches
this shows every reachable Warned state has the video paused. -/
theorem analyzeFrame_warned_paused (s : DetectorState) (f : FrameInput)
    (h : s.warningShown = true → s.videoPaused = true) :
    (analyzeFrame s f).1.warningShown = true →
      (analyzeFrame s f).1.videoPaused = true := by
  simp only [analyzeFrame]
  split
  · exact h
  · split
    · exact h
    · split
      · exact h
      · split
        · exact h
        · split
          · exact h
          · exact classifyStep_warned_paused _ _ _ h

/-- Claim C9: resetDetectionState (the engine reset used by onReset,
seeking and resetWarning) is idempotent: applying it twice yields exactly
the state of applying it once, for every detection state. -/
theorem resetDetectionState_idempotent (s : DetectorState) :
    resetDetectionState (resetDetectionState s) = resetDetectionState s := rfl

/-- Claim C4: in the Warned state — warning latch set and video paused,
which is exactly how triggerWarning leaves the session (see
triggerWarning_latches and analyzeFrame_warned_paused) — every further
analyzeFrame call is a complete no-op: windows, totalFlashes,
maxFlashesPerSecond, previous metrics and even the raw frame counter are
unchanged, and nothing is emitted. -/
theorem warned_frame_noop (s : DetectorState) (f : FrameInput)
    (_hW : s.warningShown = true) (hP : s.videoPaused = true) :
    analyzeFrame s f = (s, none) :=
  analyzeFrame_guard s f (Or.inl hP)

/-- Claim C4 witness: concrete warned-and-paused state, concrete frame. -/
theorem warned_frame_noop_witness :
    analyzeFrame { initialState with warningShown := true, videoPaused := true }
        dummyFrame =
      ({ initialState with warningShown := true, videoPaused := true }, none) :=
  warned_frame_noop _ _ rfl rfl

/-- Claim C3: once the warning latch is set, an arbitrary further
sequence of analyzeFrame calls emits no warning at all, and the latch
stays set throughout (only resetWarning or a fresh start clears it; the
plain detection-state reset does not touch the latch). -/
theorem warned_latch_no_second_warning (s : DetectorState) (fs : List FrameInput)
    (h : s.warningShown = true) :
    (runCalls s fs).2 = [] ∧ (runCalls s fs).1.warningShown = true := by
  induction fs generalizing s with
  | nil => exact ⟨rfl, h⟩
  | cons f fs ih =>
    obtain ⟨h1, h2⟩ := analyzeFrame_warned s f h
    obtain ⟨h3, h4⟩ := ih (analyzeFrame s f).1 h2
    refine ⟨?_, h4⟩
    simp [runCalls, h1, h3]

/-- Claim C3 witness: concrete warned state, one further frame. -/
theorem warned_latch_no_second_warning_witness :
    (runCalls { initialState with warningShown := true } [dummyFrame]).2 = []
      ∧ (runCalls { initialState with warningShown := true }
          [dummyFrame]).1.warningShown = true :=
  warned_latch_no_second_warning _ _ rfl

/-- Claim C7: an analyzed frame that falls within the warmup span (fewer
than WARMUP_FRAMES frames analyzed so far) records no event of either
kind and emits no warning: it only bumps the counters and stores its
metrics as the new previous metrics, so classification starts with
analyzed frame 11 compared against the metrics stored by frame 10. -/
theorem warmup_frames_never_record (s : DetectorState) (f : FrameInput)
    (hc : s.analyzedFrameCount < WARMUP_FRAMES)
    (hp : s.videoPaused = false) (he : s.videoEnded = false)
    (hs : (s.frameCount + 1) % s.skipFrames = 0) :
    analyzeFrame s f =
      ({ s with frameCount := s.frameCount + 1,
                analyzedFrameCount := s.analyzedFrameCount + 1,
                prevLuminance := some f.lum,
                prevRedSaturation := some f.red }, none) :=
  analyzeFrame_warmup s f hp he hs (Nat.succ_le_of_lt hc)

section
attribute [local semireducible] Rat.add Rat.mul Rat.inv Rat.sub Rat.ofScientific

/-- Claim C7 witness: a started session with one dropped call analyzes a
bright frame as its first warmup frame and only stores the metrics. -/
theorem warmup_frames_never_record_witness :
    analyzeFrame { startState with frameCount := 1 } ⟨9/10, 0, 50⟩ =
      ({ startState with frameCount := 2, analyzedFrameCount := 1,
                         prevLuminance := some (9/10),
                         prevRedSaturation := some 0 }, none) :=
  warmup_frames_never_record _ _ (by decide) rfl rfl (by decide)

/-- Claim C5 (code bug): with the skipFrames = 2 of the constructor, the
second call to analyzeFrame is already analyzed — it stores metrics and
bumps analyzedFrameCount to 1 — and the third call is dropped, so the
filter admits every 2nd call (even frameCount), not every 3rd call as
the stride comment of the source itself documents. -/
theorem stride_admits_every_second_call :
    (runCalls startState [dummyFrame, ⟨9/10, 1/10, 5⟩]).1.analyzedFrameCount = 1
      ∧ (runCalls startState [dummyFrame, ⟨9/10, 1/10, 5⟩]).1.prevLuminance
          = some (9/10)
      ∧ (runCalls startState
          [dummyFrame, ⟨9/10, 1/10, 5⟩, dummyFrame]).1.analyzedFrameCount = 1 := by
  decide

/-- Claim C8 (code bug): on an empty frame (zero-area pixel buffer) both
metric functions compute 0 / (0 / 4), which is JavaScript NaN, not 0,
and the result is not finite — the source has no empty-frame guard. -/
theorem empty_frame_metrics_nan (pow24 : ℚ → ℚ) :
    calculateLuminance pow24 [] = JSNum.nan
      ∧ calculateRedSaturation [] = JSNum.nan
      ∧ (calculateLuminance pow24 []).isFinite = false
      ∧ JSNum.nan ≠ JSNum.num 0 := by
  refine ⟨?_, by decide, ?_, by decide⟩ <;> rfl

/-- Claim C1 counterexample: in the reachable post-warmup state sBoundary
the stored previous luminance is exactly MIN_BRIGHTNESS, so for a frame
of luminance 0.9 the dark-frame guard does not trigger and both the
relative and the absolute luminance deltas are far above threshold, yet
no general flash event is recorded (the window stays empty and
totalFlashes stays 0), because line 147 also demands strictly more than
MIN_BRIGHTNESS from both frames. -/
theorem generalFlash_boundary_counterexample :
    sBoundary.prevLuminance = some (1/20)
      ∧ WARMUP_FRAMES < sBoundary.analyzedFrameCount + 1
      ∧ (sBoundary.frameCount + 1) % sBoundary.skipFrames = 0
      ∧ sBoundary.videoPaused = false
      ∧ darkGuard sBoundary.prevLuminance (9/10) = false
      ∧ |(9/10 : ℚ) - 1/20| / max (1/20) (1/100) > LUMINANCE_THRESHOLD
      ∧ |(9/10 : ℚ) - 1/20| > 5/100
      ∧ sBoundary.totalFlashes = 0
      ∧ (analyzeFrame sBoundary ⟨9/10, 0, 100⟩).1.totalFlashes = 0
      ∧ (analyzeFrame sBoundary ⟨9/10, 0, 100⟩).1.flashTimestamps = []
      ∧ (analyzeFrame sBoundary ⟨9/10, 0, 100⟩).2 = none := by
  decide

/-- Claim C2 counterexample: in the reachable post-warmup state sBoundary
both the previous and the current luminance equal MIN_BRIGHTNESS (so
both satisfy the lower bound of 0.05 stated by the claim) and the red saturation
delta 0.9 exceeds RED_THRESHOLD, yet no red flash event is recorded,
because line 154 demands strictly more than MIN_BRIGHTNESS from both
frames. -/
theorem redFlash_boundary_counterexample :
    sBoundary.prevLuminance = some (1/20)
      ∧ WARMUP_FRAMES < sBoundary.analyzedFrameCount + 1
      ∧ (sBoundary.frameCount + 1) % sBoundary.skipFrames = 0
      ∧ ¬ ((1/20 : ℚ) < MIN_BRIGHTNESS)
      ∧ |(9/10 : ℚ) - sBoundary.prevRedSaturation.getD 0| > RED_THRESHOLD
      ∧ (analyzeFrame sBoundary ⟨1/20, 9/10, 100⟩).1.redFlashTimestamps = []
      ∧ (analyzeFrame sBoundary ⟨1/20, 9/10, 100⟩).2 = none := by
  decide

/-- Claim C6 counterexample: after the staleRun call sequence, whose last
call carries the frame timestamp 2500 and is dark-suppressed, the
general window still holds the event timestamp 100, which is 2400 ms
older than the frame of that call — the pruning of lines 158-164 runs only on
calls that reach the classification block. -/
theorem window_invariant_counterexample :
    (runCalls startState staleRun).1.flashTimestamps = [100]
      ∧ (runCalls startState staleRun).1.prevLuminance = some 0
      ∧ ¬ ((2500 : ℚ) - 100 ≤ DETECTION_WINDOW) := by
  decide

/-- Claim C1 (amended): for a stride-admitted, post-warmup comparison
with the dark guard silent, a general flash event is recorded (window
gains the frame timestamp, totalFlashes is incremented) if and only if
the relative luminance change exceeds LUMINANCE_THRESHOLD, both the
current and the previous luminance are strictly above MIN_BRIGHTNESS,
and the absolute change exceeds 0.05. -/
theorem generalFlash_record_iff (s : DetectorState) (f : FrameInput) (p : ℚ)
    (hp : s.videoPaused = false) (he : s.videoEnded = false)
    (hs : (s.frameCount + 1) % s.skipFrames = 0)
    (hw : WARMUP_FRAMES < s.analyzedFrameCount + 1)
    (hprev : s.prevLuminance = some p)
    (hd : darkGuard s.prevLuminance f.lum = false) :
    ((analyzeFrame s f).1.totalFlashes = s.totalFlashes + 1
        ∧ (analyzeFrame s f).1.flashTimestamps =
            pruneWindow f.time (s.flashTimestamps ++ [f.time]))
      ↔ (|f.lum - p| / max p (1/100) > LUMINANCE_THRESHOLD
          ∧ f.lum > MIN_BRIGHTNESS ∧ p > MIN_BRIGHTNESS
          ∧ |f.lum - p| > 5/100) := by
  rw [analyzeFrame_classify s f p hp he hs hw hprev hd,
    ← recordsGeneral_eq_true_iff]
  obtain ⟨hfl, -, htf, -, -⟩ :=
    classifyStep_fst { s with frameCount := s.frameCount + 1,
                              analyzedFrameCount := s.analyzedFrameCount + 1 } p f
  rw [hfl, htf]
  by_cases hG : recordsGeneral f.lum p = true
  · simp [hG]
  · have hGf : recordsGeneral f.lum p = false := by
      revert hG; cases recordsGeneral f.lum p <;> simp
    simp [hGf]

/-- Claim C1 witness: in the concrete state sActive a frame of luminance
0.9 qualifies on every count and the event is recorded. -/
theorem generalFlash_record_iff_witness :
    ((analyzeFrame sActive ⟨9/10, 0, 100⟩).1.totalFlashes = sActive.totalFlashes + 1
        ∧ (analyzeFrame sActive ⟨9/10, 0, 100⟩).1.flashTimestamps =
            pruneWindow 100 (sActive.flashTimestamps ++ [100]))
      ↔ (|(9/10 : ℚ) - 1/2| / max (1/2) (1/100) > LUMINANCE_THRESHOLD
          ∧ (9/10 : ℚ) > MIN_BRIGHTNESS ∧ (1/2 : ℚ) > MIN_BRIGHTNESS
          ∧ |(9/10 : ℚ) - 1/2| > 5/100) :=
  generalFlash_record_iff sActive ⟨9/10, 0, 100⟩ (1/2)
    (by decide) (by decide) (by decide) (by decide) (by decide) (by decide)

/-- Claim C2 (amended): for a stride-admitted, post-warmup comparison
with both luminances strictly above MIN_BRIGHTNESS, a red flash event is
recorded if and only if the red saturation delta exceeds RED_THRESHOLD —
a test independent of the general-flash condition; and three such red
transitions within 1000 ms produce exactly one Warning of kind red. -/
theorem redFlash_record_iff (s : DetectorState) (f : FrameInput) (p : ℚ)
    (hp : s.videoPaused = false) (he : s.videoEnded = false)
    (hs : (s.frameCount + 1) % s.skipFrames = 0)
    (hw : WARMUP_FRAMES < s.analyzedFrameCount + 1)
    (hprev : s.prevLuminance = some p)
    (hpb : p > MIN_BRIGHTNESS) (hcb : f.lum > MIN_BRIGHTNESS) :
    ((analyzeFrame s f).1.redFlashTimestamps =
        pruneWindow f.time (s.redFlashTimestamps ++ [f.time])
      ↔ |f.red - s.prevRedSaturation.getD 0| > RED_THRESHOLD)
    ∧ (runCalls startState scenD).2 =
        [{ kind := WKind.red, flashCount := 3,
           maxFlashesPerSecond := 0, totalFlashes := 0 }] := by
  have hd : darkGuard s.prevLuminance f.lum = false := by
    simp [darkGuard, hprev, not_lt.mpr (le_of_lt hpb), not_lt.mpr (le_of_lt hcb)]
  refine ⟨?_, by decide⟩
  rw [analyzeFrame_classify s f p hp he hs hw hprev hd]
  obtain ⟨-, hrl, -, -, -⟩ :=
    classifyStep_fst { s with frameCount := s.frameCount + 1,
                              analyzedFrameCount := s.analyzedFrameCount + 1 } p f
  rw [hrl]
  by_cases hR : recordsRed f.lum p f.red (s.prevRedSaturation.getD 0) = true
  · have hdelta := ((recordsRed_eq_true_iff _ _ _ _).mp hR).1
    simp [hR, hdelta]
  · have hRf : recordsRed f.lum p f.red (s.prevRedSaturation.getD 0) = false := by
      revert hR; cases recordsRed f.lum p f.red (s.prevRedSaturation.getD 0) <;> simp
    simp only [hRf, Bool.false_eq_true, if_false]
    constructor
    · intro hEq
      exact absurd hEq.symm (pruneWindow_append_self_ne _ _)
    · intro hdelta
      have := (recordsRed_eq_true_iff f.lum p f.red (s.prevRedSaturation.getD 0)).mpr
        ⟨hdelta, hcb, hpb⟩
      rw [hRf] at this
      cases this

/-- Claim C2 witness: in the concrete state sActive a red saturation
jump from 0 to 0.9 at bright luminance records a red event. -/
theorem redFlash_record_iff_witness :
    ((analyzeFrame sActive ⟨9/10, 9/10, 100⟩).1.redFlashTimestamps =
        pruneWindow 100 (sActive.redFlashTimestamps ++ [100])
      ↔ |(9/10 : ℚ) - sActive.prevRedSaturation.getD 0| > RED_THRESHOLD)
    ∧ (runCalls startState scenD).2 =
        [{ kind := WKind.red, flashCount := 3,
           maxFlashesPerSecond := 0, totalFlashes := 0 }] :=
  redFlash_record_iff sActive ⟨9/10, 9/10, 100⟩ (1/2)
    (by decide) (by decide) (by decide) (by decide) (by decide)
    (by decide) (by decide)

/-- Claim C6 (amended): after any analyzeFrame call that reaches the
classification block (stride-admitted, past warmup, previous luminance
stored, dark guard silent), every timestamp in both windows is within
DETECTION_WINDOW of the frame time; the dropped, warmup and
dark-suppressed calls leave the windows untouched instead (see
window_invariant_counterexample for a stale window after such a call). -/
theorem window_invariant_classified (s : DetectorState) (f : FrameInput) (p : ℚ)
    (hp : s.videoPaused = false) (he : s.videoEnded = false)
    (hs : (s.frameCount + 1) % s.skipFrames = 0)
    (hw : WARMUP_FRAMES < s.analyzedFrameCount + 1)
    (hprev : s.prevLuminance = some p)
    (hd : darkGuard s.prevLuminance f.lum = false) :
    (analyzeFrame s f).1.flashTimestamps.all
        (fun t => decide (f.time - t ≤ DETECTION_WINDOW)) = true
      ∧ (analyzeFrame s f).1.redFlashTimestamps.all
        (fun t => decide (f.time - t ≤ DETECTION_WINDOW)) = true := by
  rw [analyzeFrame_classify s f p hp he hs hw hprev hd]
  obtain ⟨hfl, hrl, -, -, -⟩ :=
    classifyStep_fst { s with frameCount := s.frameCount + 1,
                              analyzedFrameCount := s.analyzedFrameCount + 1 } p f
  rw [hfl, hrl]
  exact ⟨pruneWindow_all _ _, pruneWindow_all _ _⟩

/-- Claim C6 witness: concrete classified call in the state sActive. -/
theorem window_invariant_classified_witness :
    (analyzeFrame sActive ⟨9/10, 0, 100⟩).1.flashTimestamps.all
        (fun t => decide ((100 : ℚ) - t ≤ DETECTION_WINDOW)) = true
      ∧ (analyzeFrame sActive ⟨9/10, 0, 100⟩).1.redFlashTimestamps.all
        (fun t => decide ((100 : ℚ) - t ≤ DETECTION_WINDOW)) = true :=
  window_invariant_classified sActive ⟨9/10, 0, 100⟩ (1/2)
    (by decide) (by decide) (by decide) (by decide) (by decide) (by decide)

/-- Claim C10: totalFlashes changes only by recording a general flash
event — it is incremented exactly when the call reaches classification
and the general condition of line 147 holds, never for a red event; any
emitted warning carries the resulting totalFlashes value; and in the
pure red scenario the emitted warning has kind red with totalFlashes 0
even though three red events were just recorded. -/
theorem totalFlashes_counts_only_general (s : DetectorState) (f : FrameInput) :
    ((analyzeFrame s f).1.totalFlashes = s.totalFlashes
        ∨ (analyzeFrame s f).1.totalFlashes = s.totalFlashes + 1)
    ∧ ((analyzeFrame s f).1.totalFlashes = s.totalFlashes + 1
        ↔ (s.videoPaused = false ∧ s.videoEnded = false
            ∧ (s.frameCount + 1) % s.skipFrames = 0
            ∧ WARMUP_FRAMES < s.analyzedFrameCount + 1
            ∧ darkGuard s.prevLuminance f.lum = false
            ∧ s.prevLuminance.isSome = true
            ∧ recordsGeneral f.lum (s.prevLuminance.getD 0) = true))
    ∧ (analyzeFrame s f).2.all
        (fun w => decide (w.totalFlashes = (analyzeFrame s f).1.totalFlashes)) = true
    ∧ (runCalls startState scenD).2.map WarningEvent.kind = [WKind.red]
    ∧ (runCalls startState scenD).2.map WarningEvent.totalFlashes = [0]
    ∧ (runCalls startState scenD).1.redFlashTimestamps.length = 3 := by
  have hD1 : (runCalls startState scenD).2.map WarningEvent.kind = [WKind.red] := by
    decide
  have hD2 : (runCalls startState scenD).2.map WarningEvent.totalFlashes = [0] := by
    decide
  have hD3 : (runCalls startState scenD).1.redFlashTimestamps.length = 3 := by
    decide
  by_cases hgp : s.videoPaused = true ∨ s.videoEnded = true
  · rw [analyzeFrame_guard s f hgp]
    refine ⟨Or.inl rfl, ?_, by simp, hD1, hD2, hD3⟩
    constructor
    · intro h; simp at h
    · rintro ⟨h1, h2, -⟩
      rcases hgp with hg | hg
      · rw [hg] at h1; cases h1
      · rw [hg] at h2; cases h2
  · simp only [not_or, Bool.not_eq_true] at hgp
    obtain ⟨hp, he⟩ := hgp
    by_cases hstr : (s.frameCount + 1) % s.skipFrames = 0
    case neg =>
      rw [analyzeFrame_skip s f hp he hstr]
      refine ⟨Or.inl rfl, ?_, by simp, hD1, hD2, hD3⟩
      constructor
      · intro h; simp at h
      · rintro ⟨-, -, h3, -⟩; exact absurd h3 hstr
    · by_cases hwu : s.analyzedFrameCount + 1 ≤ WARMUP_FRAMES
      · rw [analyzeFrame_warmup s f hp he hstr hwu]
        refine ⟨Or.inl rfl, ?_, by simp, hD1, hD2, hD3⟩
        constructor
        · intro h; simp at h
        · rintro ⟨-, -, -, h4, -⟩; omega
      · have hw : WARMUP_FRAMES < s.analyzedFrameCount + 1 := Nat.not_le.mp hwu
        by_cases hdk : darkGuard s.prevLuminance f.lum = true
        · rw [analyzeFrame_dark s f hp he hstr hw hdk]
          refine ⟨Or.inl rfl, ?_, by simp, hD1, hD2, hD3⟩
          constructor
          · intro h; simp at h
          · rintro ⟨-, -, -, -, h5, -⟩; rw [hdk] at h5; cases h5
        · have hdf : darkGuard s.prevLuminance f.lum = false := by
            revert hdk; cases darkGuard s.prevLuminance f.lum <;> simp
          cases hpl : s.prevLuminance with
          | none =>
            rw [analyzeFrame_noprev s f hp he hstr hw hpl]
            refine ⟨Or.inl rfl, ?_, by simp, hD1, hD2, hD3⟩
            constructor
            · intro h; simp at h
            · rintro ⟨-, -, -, -, -, h6, -⟩; simp at h6
          | some p =>
            rw [analyzeFrame_classify s f p hp he hstr hw hpl hdf]
            rw [hpl] at hdf
            obtain ⟨-, -, htf, -, -⟩ :=
              classifyStep_fst { s with frameCount := s.frameCount + 1,
                                        analyzedFrameCount := s.analyzedFrameCount + 1 } p f
            refine ⟨?_, ?_, classifyStep_snd_totalFlashes _ p f, hD1, hD2, hD3⟩
            · rw [htf]
              by_cases hG : recordsGeneral f.lum p = true
              · right; simp [hG]
              · have hGf : recordsGeneral f.lum p = false := by
                  revert hG; cases recordsGeneral f.lum p <;> simp
                left; simp [hGf]
            · rw [htf]
              by_cases hG : recordsGeneral f.lum p = true
              · simp [hG, hp, he, hstr, hw, hdf, hpl]
              · have hGf : recordsGeneral f.lum p = false := by
                  revert hG; cases recordsGeneral f.lum p <;> simp
                simp [hGf, hpl]

/-- Claim C10 witness: concrete classified call in the state sActive. -/
theorem totalFlashes_counts_only_general_witness :
    ((analyzeFrame sActive ⟨9/10, 0, 100⟩).1.totalFlashes = sActive.totalFlashes
        ∨ (analyzeFrame sActive ⟨9/10, 0, 100⟩).1.totalFlashes
            = sActive.totalFlashes + 1)
    ∧ ((analyzeFrame sActive ⟨9/10, 0, 100⟩).1.totalFlashes
            = sActive.totalFlashes + 1
        ↔ (sActive.videoPaused = false ∧ sActive.videoEnded = false
            ∧ (sActive.frameCount + 1) % sActive.skipFrames = 0
            ∧ WARMUP_FRAMES < sActive.analyzedFrameCount + 1
            ∧ darkGuard sActive.prevLuminance (9/10) = false
            ∧ sActive.prevLuminance.isSome = true
            ∧ recordsGeneral (9/10) (sActive.prevLuminance.getD 0) = true))
    ∧ (analyzeFrame sActive ⟨9/10, 0, 100⟩).2.all
        (fun w => decide (w.totalFlashes
          = (analyzeFrame sActive ⟨9/10, 0, 100⟩).1.totalFlashes)) = true
    ∧ (runCalls startState scenD).2.map WarningEvent.kind = [WKind.red]
    ∧ (runCalls startState scenD).2.map WarningEvent.totalFlashes = [0]
    ∧ (runCalls startState scenD).1.redFlashTimestamps.length = 3 :=
  totalFlashes_counts_only_general sActive ⟨9/10, 0, 100⟩

end

end Halo
